import Mathlib

/-!
Verification of the small-go-s3-client HTTP handlers.

The three handlers of the repository, listFilesInBucket, uploadFileToBucket
and downloadFileFromBucket, are embedded as pure functions over explicit
environment records.  Calls into the AWS SDK and the Go standard library
(HeadObject, Download, Upload, ListObjectsPagesWithContext,
time.ParseDuration, http.DetectContentType, mime.FormatMediaType) are
modelled as oracle fields of the environment: the environment fixes the
outcome of each external call, and the handler is the Go control flow
around those outcomes, translated statement by statement.

Go slices carry a nil / non-nil distinction that matters for JSON encoding
(a nil slice encodes to null, a non-nil empty slice to []); a Go slice is
therefore modelled as Option (List _), with goAppend mirroring the Go
builtin append, which always yields a non-nil slice.
-/

namespace SmallS3

/-- One element of the JSON listing response, mirroring the Go struct
s3Data with fields Key and Size (int64, modelled as Int). -/
structure s3Data where
  Key : String
  Size : Int
deriving DecidableEq, Repr

/-- An object as returned by the storage provider in a listing page:
the Key and Size fields of an s3.Object after the nil-pointer
dereferences aws.StringValue and aws.Int64 performed by the callback. -/
structure S3Object where
  key : String
  size : Int
deriving DecidableEq, Repr

/-- Lower-case hexadecimal digit, used by the \u00XX escapes of the JSON
encoder. -/
def hexDigit (n : Nat) : Char :=
  if n < 10 then Char.ofNat (48 + n) else Char.ofNat (87 + n)

/-- Escaping of a single character as performed by encoding/json with the
default HTML escaping of a json.Encoder: quote and backslash are
backslash-escaped, newline, carriage return and tab use their short
forms, angle brackets and ampersand become \u00XX escapes, the other
control characters below space become \u00XX, every other character is
kept as is. -/
def jsonEscapeChar (c : Char) : String :=
  if c = '"' then "\\\""
  else if c = '\\' then "\\\\"
  else if c = '\n' then "\\n"
  else if c = '\r' then "\\r"
  else if c = '\t' then "\\t"
  else if c = '<' then "\\u003c"
  else if c = '>' then "\\u003e"
  else if c = '&' then "\\u0026"
  else if c.toNat < 32 then
    "\\u00" ++ String.singleton (hexDigit (c.toNat / 16)) ++ String.singleton (hexDigit (c.toNat % 16))
  else String.singleton c

/-- JSON escaping of a whole string. -/
def jsonEscapeString (s : String) : String :=
  String.join (s.toList.map jsonEscapeChar)

/-- A JSON string literal: escaped content between double quotes. -/
def jsonQuote (s : String) : String :=
  "\"" ++ jsonEscapeString s ++ "\""

/-- JSON encoding of one s3Data value, as encoding/json produces for the
Go struct: an object with the exported field names Key and Size. -/
def encodeS3Data (d : s3Data) : String :=
  "\x7b\"Key\":" ++ jsonQuote d.Key ++ ",\"Size\":" ++ toString d.Size ++ "\x7d"

/-- Comma-separated encoding of the elements of a slice. -/
def encodeS3DataElems : List s3Data → String
  | [] => ""
  | [d] => encodeS3Data d
  | d :: rest => encodeS3Data d ++ "," ++ encodeS3DataElems rest

/-- JSON encoding of a Go slice of s3Data: a nil slice encodes to null,
a non-nil slice to a JSON array. -/
def encodeS3DataSlice : Option (List s3Data) → String
  | none => "null"
  | some l => "[" ++ encodeS3DataElems l ++ "]"

/-- The Go builtin append on a slice of s3Data: appending to a nil slice
allocates, so the result is always non-nil. -/
def goAppend (s : Option (List s3Data)) (x : s3Data) : Option (List s3Data) :=
  some (s.getD [] ++ [x])

/-- The body of the pagination callback passed to
ListObjectsPagesWithContext: for each object o of the page, append
s3Data with Key := aws.StringValue(o.Key) and Size := *aws.Int64(*o.Size)
to the accumulator slice. -/
def appendPage (objects : Option (List s3Data)) (p : List S3Object) : Option (List s3Data) :=
  p.foldl (fun acc o => goAppend acc ⟨o.key, o.size⟩) objects

/-- The effect of ListObjectsPagesWithContext on the captured objects
slice when the provider delivers the given pages to the callback (the
callback always returns true, so every page is processed). -/
def runPages (pages : List (List S3Object)) (objects : Option (List s3Data)) : Option (List s3Data) :=
  pages.foldl appendPage objects

/-- Environment of one request to the list handler: the DURATION
environment variable as seen by os.LookupEnv, the outcome of
time.ParseDuration on any string (the parsed duration in nanoseconds, or
the error message), the pages the provider delivers to the pagination
callback, and the error result of ListObjectsPagesWithContext. -/
structure ListEnv where
  bucket : String
  durationVar : Option String
  parseDuration : String → Except String Int
  pages : List (List S3Object)
  listErr : Option String

/-- Observable outcome of the list handler: the HTTP status (400 via
WriteHeader, otherwise the implicit 200 of the first Write), the response
body, whether ListObjectsPagesWithContext was called, and the deadline
carried by the context passed to it (none when context.WithTimeout was
not applied). -/
structure ListResult where
  status : Nat
  body : String
  listCalled : Bool
  ctxDeadline : Option Int
deriving DecidableEq, Repr

/-- The list handler listFilesInBucket, translated from the source: look
up DURATION (400 with a fixed message when absent), parse it (400 echoing
the parse error when unparsable), wrap the background context in
WithTimeout exactly when the parsed timeout is positive, run the paginated
listing starting from the non-nil empty slice, 400 echoing the provider
error on failure, otherwise encode the accumulated slice with
json.Encoder (which appends a newline). -/
def listFilesInBucket (env : ListEnv) : ListResult :=
  match env.durationVar with
  | none =>
      { status := 400
        body := "could not retrieve duration, %v"
        listCalled := false
        ctxDeadline := none }
  | some duration =>
    match env.parseDuration duration with
    | .error err =>
        { status := 400
          body := "could not parse provided duration, " ++ err
          listCalled := false
          ctxDeadline := none }
    | .ok timeout =>
      let deadline : Option Int := if 0 < timeout then some timeout else none
      match env.listErr with
      | some err =>
          { status := 400
            body := "failed to list objects for bucket, " ++ env.bucket ++ ", " ++ err
            listCalled := true
            ctxDeadline := deadline }
      | none =>
          let objects := runPages env.pages (some [])
          { status := 200
            body := encodeS3DataSlice objects ++ "\n"
            listCalled := true
            ctxDeadline := deadline }

/-- The multipart file returned by request.FormFile: the bytes the reader
yields, and the error io.Copy reports after reading them (modelling a
stream that fails mid-read). Bytes are Nat values below 256. -/
structure FileStream where
  content : List Nat
  readErr : Option String

/-- The helper uploadFile of the source: io.Copy the multipart file into
a fresh buffer, wrapping a copy error as could not upload file, and
return the buffered bytes on success. -/
def uploadFile (file : FileStream) : Except String (List Nat) :=
  match file.readErr with
  | some err => .error ("could not upload file. " ++ err)
  | none => .ok file.content

/-- Environment of one request to the upload handler: the bucket form
value, the outcome of request.FormFile for the file field (the filename
from the multipart header and the file stream, or an error), and the
outcome of uploader.Upload (the result Location, or an error). -/
structure UploadEnv where
  bucket : String
  formFile : Except String (String × FileStream)
  uploadErr : Option String
  location : String

/-- Observable outcome of the upload handler: HTTP status, response body,
and the list of calls made to uploader.Upload, each recorded as
(Bucket, Key, Body bytes). -/
structure UploadResult where
  status : Nat
  body : String
  uploadCalls : List (String × String × List Nat)
deriving DecidableEq, Repr

/-- The upload handler uploadFileToBucket, translated from the source:
FormFile failure gives 400 with its message, a read failure inside
uploadFile gives 400 wrapping the helper error, otherwise exactly one
Upload call is made with the bucket form value, the client-supplied
filename as Key and the buffered bytes as Body; an Upload error gives 400
with its message, success writes the plain-text location message. -/
def uploadFileToBucket (env : UploadEnv) : UploadResult :=
  match env.formFile with
  | .error err =>
      { status := 400
        body := "could not get file data from request: " ++ err
        uploadCalls := [] }
  | .ok (filename, file) =>
    match uploadFile file with
    | .error err =>
        { status := 400
          body := "could not upload file: " ++ err
          uploadCalls := [] }
    | .ok fileData =>
      let call := (env.bucket, filename, fileData)
      match env.uploadErr with
      | some err =>
          { status := 400
            body := "failed to upload file to S3 bucket: " ++ err
            uploadCalls := [call] }
      | none =>
          { status := 200
            body := "file uploaded to S3 bucket: " ++ env.location
            uploadCalls := [call] }

/-- Environment of one request to the download handler: the bucket, file
and downloadFile form values, the outcome of HeadObject (the
ContentLength, or an error), the contents of the pre-sized buffer after
downloader.Download returned together with its byte count and error, the
outcome of os.WriteFile, and the stdlib functions http.DetectContentType
and mime.FormatMediaType as oracles. -/
structure DownloadEnv where
  bucket : String
  file : String
  downloadFile : String
  headResult : Except String Int
  downloadBuf : List Nat
  objectSize : Int
  downloadErr : Option String
  writeFileErr : Option String
  detectContentType : List Nat → String
  formatMediaType : String → String → String

/-- Observable outcome of the download handler: HTTP status (the handler
never calls WriteHeader, so the status is the implicit 200), response
headers and body, whether downloader.Download was called, the successful
os.WriteFile calls as (path, bytes, permission), and the messages printed
to the server log. -/
structure DownloadResult where
  status : Nat
  headers : List (String × String)
  body : List Nat
  downloadCalled : Bool
  fileWrites : List (String × List Nat × Nat)
  log : List String
deriving DecidableEq, Repr

/-- The download handler downloadFileFromBucket, translated from the
source: probe with HeadObject and on error print the error message and
return at once (no download call, no response body, no headers); on
probe success make a buffer of ContentLength bytes, call Download into
it, and on a download error only print the message and continue; when
the downloadFile form value is the literal yes, os.WriteFile the buffer
to a path equal to the file form value with mode 0755, printing but not
surfacing any write error, and return with an empty response; otherwise
set Content-Disposition to FormatMediaType of attachment with the
filename parameter equal to the file form value, set Content-Type to
DetectContentType of the buffer, and copy the buffer to the response. -/
def downloadFileFromBucket (env : DownloadEnv) : DownloadResult :=
  let log0 := ["Attempting to download " ++ env.file ++ " from bucket: " ++ env.bucket]
  match env.headResult with
  | .error err =>
      { status := 200
        headers := []
        body := []
        downloadCalled := false
        fileWrites := []
        log := log0 ++ [err] }
  | .ok contentLength =>
    let log1 := log0 ++ ["File size is " ++ toString contentLength ++ "."]
    let buf := env.downloadBuf
    let logDl :=
      match env.downloadErr with
      | some err => ["Could not download file. Reason: " ++ err ++ "."]
      | none => []
    let log2 := log1 ++ logDl ++ ["Downloaded file. Size: " ++ toString env.objectSize]
    if env.downloadFile = "yes" then
      match env.writeFileErr with
      | some err =>
          { status := 200
            headers := []
            body := []
            downloadCalled := true
            fileWrites := []
            log := log2 ++ ["Could not write file to " ++ env.file ++ ". Reason: " ++ err] }
      | none =>
          { status := 200
            headers := []
            body := []
            downloadCalled := true
            fileWrites := [(env.file, buf, 493)]
            log := log2 ++ ["Wrote file to " ++ env.file] }
    else
      { status := 200
        headers := [("Content-Disposition", env.formatMediaType "attachment" env.file),
                    ("Content-Type", env.detectContentType buf)]
        body := buf
        downloadCalled := true
        fileWrites := []
        log := log2 ++ ["Downloaded file."] }

/-- Converting one provider object into the response shape used by the
pagination callback. -/
def toS3Data (o : S3Object) : s3Data := ⟨o.key, o.size⟩

theorem appendPage_some (p : List S3Object) (l : List s3Data) :
    appendPage (some l) p = some (l ++ p.map toS3Data) := by
  induction p generalizing l with
  | nil => simp [appendPage]
  | cons o rest ih =>
      have h1 : appendPage (some l) (o :: rest)
          = appendPage (some (l ++ [toS3Data o])) rest := rfl
      rw [h1, ih]
      simp

theorem runPages_some (pages : List (List S3Object)) (l : List s3Data) :
    runPages pages (some l) = some (l ++ pages.flatten.map toS3Data) := by
  induction pages generalizing l with
  | nil => simp [runPages]
  | cons p rest ih =>
      have h1 : runPages (p :: rest) (some l)
          = runPages rest (appendPage (some l) p) := rfl
      rw [h1, appendPage_some, ih]
      simp

/-- C2: with DURATION present and parsable and a successful provider
listing, the response is status 200 with body the JSON encoding of one
descriptor per provider object, in provider page order, no
deduplication: the descriptor count is the total object count over all
pages and the descriptor keys are exactly the provider keys in order. -/
theorem listing_returns_all_objects_in_provider_order
    (env : ListEnv) (d : String) (t : Int)
    (hdur : env.durationVar = some d)
    (hparse : env.parseDuration d = .ok t)
    (hok : env.listErr = none) :
    (listFilesInBucket env).status = 200 ∧
    (listFilesInBucket env).body
      = encodeS3DataSlice (some (env.pages.flatten.map toS3Data)) ++ "\n" ∧
    (env.pages.flatten.map toS3Data).length = (env.pages.map List.length).sum ∧
    (env.pages.flatten.map toS3Data).map s3Data.Key = env.pages.flatten.map S3Object.key := by
  refine ⟨?_, ?_, ?_, ?_⟩
  · simp [listFilesInBucket, hdur, hparse, hok]
  · simp [listFilesInBucket, hdur, hparse, hok, runPages_some]
  · rw [List.length_map, List.length_flatten]
  · rw [List.map_map]
    exact List.map_congr_left fun o _ => rfl

/-- Concrete instantiation for C2, with a duplicate key across pages to
exercise the absence of deduplication. -/
def listEnvC2 : ListEnv :=
  { bucket := "b"
    durationVar := some "5s"
    parseDuration := fun s => if s = "5s" then .ok 5000000000 else .error "bad duration"
    pages := [[⟨"a", 1⟩, ⟨"a", 1⟩], [⟨"c", 2⟩]]
    listErr := none }

theorem listing_returns_all_objects_witness :
    listEnvC2.listErr = none ∧
    ((listFilesInBucket listEnvC2).status = 200 ∧
     (listFilesInBucket listEnvC2).body
       = encodeS3DataSlice (some (listEnvC2.pages.flatten.map toS3Data)) ++ "\n" ∧
     (listEnvC2.pages.flatten.map toS3Data).length = (listEnvC2.pages.map List.length).sum ∧
     (listEnvC2.pages.flatten.map toS3Data).map s3Data.Key
       = listEnvC2.pages.flatten.map S3Object.key) :=
  ⟨rfl, listing_returns_all_objects_in_provider_order listEnvC2 "5s" 5000000000 rfl rfl rfl⟩

/-- C3: with DURATION absent the list handler answers 400 with the fixed
message and never calls the provider; with DURATION present but
unparsable it answers 400 with a body reflecting the parse error and
never calls the provider. -/
theorem bad_duration_gives_400_without_provider_call (env : ListEnv) :
    (env.durationVar = none →
      (listFilesInBucket env).status = 400 ∧
      (listFilesInBucket env).body = "could not retrieve duration, %v" ∧
      (listFilesInBucket env).listCalled = false) ∧
    (∀ d e, env.durationVar = some d → env.parseDuration d = .error e →
      (listFilesInBucket env).status = 400 ∧
      (listFilesInBucket env).body = "could not parse provided duration, " ++ e ∧
      (listFilesInBucket env).listCalled = false) := by
  constructor
  · intro h
    refine ⟨?_, ?_, ?_⟩ <;> simp [listFilesInBucket, h]
  · intro d e hd he
    refine ⟨?_, ?_, ?_⟩ <;> simp [listFilesInBucket, hd, he]

/-- Environment for the witness of C3 with a missing DURATION value. -/
def listEnvNoDur : ListEnv :=
  { bucket := "b"
    durationVar := none
    parseDuration := fun _ => .error "no value"
    pages := []
    listErr := none }

/-- Environment for the witness of C3 with an unparsable DURATION. -/
def listEnvBadDur : ListEnv :=
  { bucket := "b"
    durationVar := some "soon"
    parseDuration := fun s => .error ("time: invalid duration " ++ s)
    pages := []
    listErr := none }

theorem bad_duration_gives_400_witness :
    ((listFilesInBucket listEnvNoDur).status = 400 ∧
     (listFilesInBucket listEnvNoDur).body = "could not retrieve duration, %v" ∧
     (listFilesInBucket listEnvNoDur).listCalled = false) ∧
    ((listFilesInBucket listEnvBadDur).status = 400 ∧
     (listFilesInBucket listEnvBadDur).body
       = "could not parse provided duration, time: invalid duration soon" ∧
     (listFilesInBucket listEnvBadDur).listCalled = false) :=
  ⟨(bad_duration_gives_400_without_provider_call listEnvNoDur).1 rfl,
   (bad_duration_gives_400_without_provider_call listEnvBadDur).2
     "soon" "time: invalid duration soon" rfl rfl⟩

/-- C8: with DURATION parsed to t, the provider listing call is made and
the context passed to it carries the deadline t exactly when t is
strictly positive; for zero or negative t it carries none. -/
theorem positive_timeout_iff_deadline (env : ListEnv) (d : String) (t : Int)
    (hdur : env.durationVar = some d)
    (hparse : env.parseDuration d = .ok t) :
    (listFilesInBucket env).listCalled = true ∧
    (listFilesInBucket env).ctxDeadline = (if 0 < t then some t else none) := by
  cases h : env.listErr <;>
    simp [listFilesInBucket, hdur, hparse, h]

/-- Environment for the witness of C8 with a positive parsed timeout. -/
def listEnvPosT : ListEnv :=
  { bucket := "b"
    durationVar := some "2s"
    parseDuration := fun _ => .ok 2000000000
    pages := []
    listErr := none }

/-- Environment for the witness of C8 with a zero parsed timeout. -/
def listEnvZeroT : ListEnv :=
  { bucket := "b"
    durationVar := some "0s"
    parseDuration := fun _ => .ok 0
    pages := []
    listErr := none }

theorem positive_timeout_iff_deadline_witness :
    ((listFilesInBucket listEnvPosT).listCalled = true ∧
     (listFilesInBucket listEnvPosT).ctxDeadline
       = (if 0 < (2000000000 : Int) then some 2000000000 else none)) ∧
    ((listFilesInBucket listEnvZeroT).listCalled = true ∧
     (listFilesInBucket listEnvZeroT).ctxDeadline
       = (if 0 < (0 : Int) then some 0 else none)) :=
  ⟨positive_timeout_iff_deadline listEnvPosT "2s" 2000000000 rfl rfl,
   positive_timeout_iff_deadline listEnvZeroT "0s" 0 rfl rfl⟩

/-- C9: when the provider returns zero objects over all pages, the
successful response body is the JSON empty array followed by the newline
the encoder appends, never the JSON null of a nil slice, because the
accumulator starts as a non-nil empty slice. -/
theorem empty_listing_encodes_empty_array (env : ListEnv) (d : String) (t : Int)
    (hdur : env.durationVar = some d)
    (hparse : env.parseDuration d = .ok t)
    (hok : env.listErr = none)
    (hempty : env.pages.flatten = []) :
    (listFilesInBucket env).body = "[]\n" ∧
    (listFilesInBucket env).body ≠ "null\n" := by
  have hbody : (listFilesInBucket env).body = "[]\n" := by
    simp [listFilesInBucket, hdur, hparse, hok, runPages_some, hempty,
      encodeS3DataSlice, encodeS3DataElems]
  exact ⟨hbody, by rw [hbody]; decide⟩

/-- Environment for the witness of C9: an empty bucket delivered as one
empty page. -/
def listEnvEmpty : ListEnv :=
  { bucket := "b"
    durationVar := some "1s"
    parseDuration := fun _ => .ok 1000000000
    pages := [[]]
    listErr := none }

theorem empty_listing_encodes_empty_array_witness :
    (listFilesInBucket listEnvEmpty).body = "[]\n" ∧
    (listFilesInBucket listEnvEmpty).body ≠ "null\n" :=
  empty_listing_encodes_empty_array listEnvEmpty "1s" 1000000000 rfl rfl rfl rfl

/-- C4: when the multipart file field is present and its body is read
without error, the upload handler makes exactly one provider upload
call, with the bucket form value as Bucket, the client-supplied filename
unchanged as Key, and the full byte sequence of the file as Body,
whether or not the upload itself succeeds. -/
theorem upload_makes_one_call_with_client_filename_key
    (env : UploadEnv) (f : String) (fs : FileStream)
    (hform : env.formFile = .ok (f, fs))
    (hread : fs.readErr = none) :
    (uploadFileToBucket env).uploadCalls = [(env.bucket, f, fs.content)] := by
  cases h : env.uploadErr <;>
    simp [uploadFileToBucket, uploadFile, hform, hread, h]

/-- Concrete instantiation for C4: filename a.txt, bucket b, a known
byte sequence, successful upload. -/
def uploadEnvOk : UploadEnv :=
  { bucket := "b"
    formFile := .ok ("a.txt", { content := [104, 105, 0, 255], readErr := none })
    uploadErr := none
    location := "https://b.s3.amazonaws.com/a.txt" }

theorem upload_makes_one_call_witness :
    (uploadFileToBucket uploadEnvOk).uploadCalls = [("b", "a.txt", [104, 105, 0, 255])] :=
  upload_makes_one_call_with_client_filename_key uploadEnvOk "a.txt"
    { content := [104, 105, 0, 255], readErr := none } rfl rfl

/-- C7: each upload failure mode answers 400 with its own message and no
later step runs: a FormFile failure or a read failure leaves the
provider uncalled, and a provider upload failure never reaches the
success write. -/
theorem upload_failures_give_400_specific_message (env : UploadEnv) :
    (∀ e, env.formFile = .error e →
      (uploadFileToBucket env).status = 400 ∧
      (uploadFileToBucket env).body = "could not get file data from request: " ++ e ∧
      (uploadFileToBucket env).uploadCalls = []) ∧
    (∀ f fs e, env.formFile = .ok (f, fs) → fs.readErr = some e →
      (uploadFileToBucket env).status = 400 ∧
      (uploadFileToBucket env).body = "could not upload file: " ++ ("could not upload file. " ++ e) ∧
      (uploadFileToBucket env).uploadCalls = []) ∧
    (∀ f fs e, env.formFile = .ok (f, fs) → fs.readErr = none → env.uploadErr = some e →
      (uploadFileToBucket env).status = 400 ∧
      (uploadFileToBucket env).body = "failed to upload file to S3 bucket: " ++ e) := by
  refine ⟨?_, ?_, ?_⟩
  · intro e h
    refine ⟨?_, ?_, ?_⟩ <;> simp [uploadFileToBucket, h]
  · intro f fs e hform hread
    refine ⟨?_, ?_, ?_⟩ <;>
      simp [uploadFileToBucket, uploadFile, hform, hread]
  · intro f fs e hform hread herr
    refine ⟨?_, ?_⟩ <;>
      simp [uploadFileToBucket, uploadFile, hform, hread, herr]

/-- Environment for the witness of C7 with a missing multipart file
field. -/
def uploadEnvNoFile : UploadEnv :=
  { bucket := "b"
    formFile := .error "http: no such file"
    uploadErr := none
    location := "" }

/-- Environment for the witness of C7 with a file body that fails to
read. -/
def uploadEnvReadErr : UploadEnv :=
  { bucket := "b"
    formFile := .ok ("a.txt", { content := [1, 2], readErr := some "unexpected EOF" })
    uploadErr := none
    location := "" }

/-- Environment for the witness of C7 with a provider upload failure. -/
def uploadEnvUploadErr : UploadEnv :=
  { bucket := "b"
    formFile := .ok ("a.txt", { content := [1, 2], readErr := none })
    uploadErr := some "AccessDenied"
    location := "" }

theorem upload_failures_give_400_witness :
    ((uploadFileToBucket uploadEnvNoFile).status = 400 ∧
     (uploadFileToBucket uploadEnvNoFile).body
       = "could not get file data from request: http: no such file" ∧
     (uploadFileToBucket uploadEnvNoFile).uploadCalls = []) ∧
    ((uploadFileToBucket uploadEnvReadErr).status = 400 ∧
     (uploadFileToBucket uploadEnvReadErr).body
       = "could not upload file: could not upload file. unexpected EOF" ∧
     (uploadFileToBucket uploadEnvReadErr).uploadCalls = []) ∧
    ((uploadFileToBucket uploadEnvUploadErr).status = 400 ∧
     (uploadFileToBucket uploadEnvUploadErr).body
       = "failed to upload file to S3 bucket: AccessDenied") :=
  ⟨(upload_failures_give_400_specific_message uploadEnvNoFile).1
     "http: no such file" rfl,
   (upload_failures_give_400_specific_message uploadEnvReadErr).2.1
     "a.txt" { content := [1, 2], readErr := some "unexpected EOF" } "unexpected EOF" rfl rfl,
   (upload_failures_give_400_specific_message uploadEnvUploadErr).2.2
     "a.txt" { content := [1, 2], readErr := none } "AccessDenied" rfl rfl rfl⟩

/-- Concrete download environment with a failing HeadObject probe, used
to show the handler does not proceed to the full download. -/
def dlEnvHeadFail : DownloadEnv :=
  { bucket := "b"
    file := "f.txt"
    downloadFile := ""
    headResult := .error "NoSuchKey: The specified key does not exist."
    downloadBuf := []
    objectSize := 0
    downloadErr := none
    writeFileErr := none
    detectContentType := fun _ => "application/octet-stream"
    formatMediaType := fun _ _ => "" }

/-- C1 counterexample: on a failing metadata probe the handler does not
proceed to attempt the full download; it returns at once, so the claim
that it still attempts the download is false at this input. -/
theorem head_failure_still_downloads_refuted :
    ¬ ((downloadFileFromBucket dlEnvHeadFail).downloadCalled = true) := by
  decide

/-- C1 amended: on a failing metadata probe the handler logs the probe
error and returns immediately: the download is never attempted, no
header is set, no body and no local file is written, and the caller gets
the implicit 200. -/
theorem head_failure_logs_and_short_circuits (env : DownloadEnv) (e : String)
    (h : env.headResult = .error e) :
    (downloadFileFromBucket env).downloadCalled = false ∧
    (downloadFileFromBucket env).log
      = ["Attempting to download " ++ env.file ++ " from bucket: " ++ env.bucket, e] ∧
    (downloadFileFromBucket env).body = [] ∧
    (downloadFileFromBucket env).headers = [] ∧
    (downloadFileFromBucket env).fileWrites = [] ∧
    (downloadFileFromBucket env).status = 200 := by
  refine ⟨?_, ?_, ?_, ?_, ?_, ?_⟩ <;> simp [downloadFileFromBucket, h]

theorem head_failure_short_circuits_witness :
    (downloadFileFromBucket dlEnvHeadFail).downloadCalled = false ∧
    (downloadFileFromBucket dlEnvHeadFail).log
      = ["Attempting to download f.txt from bucket: b",
         "NoSuchKey: The specified key does not exist."] ∧
    (downloadFileFromBucket dlEnvHeadFail).body = [] ∧
    (downloadFileFromBucket dlEnvHeadFail).headers = [] ∧
    (downloadFileFromBucket dlEnvHeadFail).fileWrites = [] ∧
    (downloadFileFromBucket dlEnvHeadFail).status = 200 :=
  head_failure_logs_and_short_circuits dlEnvHeadFail
    "NoSuchKey: The specified key does not exist." rfl

/-- C5: with the downloadFile form value equal to yes, the handler sends
no response body and no headers, writes the buffer to a local file named
by the requested key with mode 0755 when the write succeeds, and on a
write failure only logs the error, with body, headers and implicit 200
identical to the success case. -/
theorem downloadFile_yes_writes_locally_and_hides_write_errors
    (env : DownloadEnv) (cl : Int)
    (hhead : env.headResult = .ok cl)
    (hyes : env.downloadFile = "yes") :
    (downloadFileFromBucket env).body = [] ∧
    (downloadFileFromBucket env).headers = [] ∧
    (downloadFileFromBucket env).status = 200 ∧
    (env.writeFileErr = none →
      (downloadFileFromBucket env).fileWrites = [(env.file, env.downloadBuf, 493)]) ∧
    (∀ e, env.writeFileErr = some e →
      (downloadFileFromBucket env).fileWrites = [] ∧
      ("Could not write file to " ++ env.file ++ ". Reason: " ++ e)
        ∈ (downloadFileFromBucket env).log) := by
  refine ⟨?_, ?_, ?_, ?_, ?_⟩
  · cases h : env.writeFileErr <;> simp [downloadFileFromBucket, hhead, hyes, h]
  · cases h : env.writeFileErr <;> simp [downloadFileFromBucket, hhead, hyes, h]
  · cases h : env.writeFileErr <;> simp [downloadFileFromBucket, hhead, hyes, h]
  · intro h
    simp [downloadFileFromBucket, hhead, hyes, h]
  · intro e h
    constructor <;> simp [downloadFileFromBucket, hhead, hyes, h]

/-- Concrete download environment for C5: persist flag yes and a failing
local write. -/
def dlEnvWriteErr : DownloadEnv :=
  { bucket := "b"
    file := "f.txt"
    downloadFile := "yes"
    headResult := .ok 3
    downloadBuf := [1, 2, 3]
    objectSize := 3
    downloadErr := none
    writeFileErr := some "permission denied"
    detectContentType := fun _ => "application/octet-stream"
    formatMediaType := fun _ _ => "" }

theorem downloadFile_yes_witness :
    (downloadFileFromBucket dlEnvWriteErr).body = [] ∧
    (downloadFileFromBucket dlEnvWriteErr).headers = [] ∧
    (downloadFileFromBucket dlEnvWriteErr).status = 200 ∧
    (dlEnvWriteErr.writeFileErr = none →
      (downloadFileFromBucket dlEnvWriteErr).fileWrites = [("f.txt", [1, 2, 3], 493)]) ∧
    (∀ e, dlEnvWriteErr.writeFileErr = some e →
      (downloadFileFromBucket dlEnvWriteErr).fileWrites = [] ∧
      ("Could not write file to f.txt. Reason: " ++ e)
        ∈ (downloadFileFromBucket dlEnvWriteErr).log) :=
  downloadFile_yes_writes_locally_and_hides_write_errors dlEnvWriteErr 3 rfl rfl

/-- C6: with the downloadFile form value different from yes, the handler
sets Content-Disposition to the attachment media type formatted with the
requested key as filename, sets Content-Type to the sniffed type of the
downloaded buffer, and sends the buffer verbatim as the body. -/
theorem download_streams_buffer_with_headers (env : DownloadEnv) (cl : Int)
    (hhead : env.headResult = .ok cl)
    (hno : env.downloadFile ≠ "yes") :
    (downloadFileFromBucket env).status = 200 ∧
    (downloadFileFromBucket env).headers
      = [("Content-Disposition", env.formatMediaType "attachment" env.file),
         ("Content-Type", env.detectContentType env.downloadBuf)] ∧
    (downloadFileFromBucket env).body = env.downloadBuf := by
  refine ⟨?_, ?_, ?_⟩ <;> simp [downloadFileFromBucket, hhead, hno]

/-- Concrete download environment for C6: no persist flag, successful
probe and download. -/
def dlEnvStream : DownloadEnv :=
  { bucket := "b"
    file := "f.txt"
    downloadFile := ""
    headResult := .ok 3
    downloadBuf := [104, 105, 10]
    objectSize := 3
    downloadErr := none
    writeFileErr := none
    detectContentType := fun _ => "text/plain; charset=utf-8"
    formatMediaType := fun disp f => disp ++ "; filename=" ++ f }

theorem download_streams_buffer_witness :
    (downloadFileFromBucket dlEnvStream).status = 200 ∧
    (downloadFileFromBucket dlEnvStream).headers
      = [("Content-Disposition", "attachment; filename=f.txt"),
         ("Content-Type", "text/plain; charset=utf-8")] ∧
    (downloadFileFromBucket dlEnvStream).body = [104, 105, 10] :=
  download_streams_buffer_with_headers dlEnvStream 3 rfl (by decide)

/-- C10: when the probe succeeds but the download call fails, the
handler only logs the failure and continues: it still writes the
pre-sized buffer to disk when the persist flag is yes, or streams it
with the implicit 200 otherwise, so the caller never sees the download
error. -/
theorem download_failure_after_probe_not_surfaced (env : DownloadEnv) (cl : Int) (e : String)
    (hhead : env.headResult = .ok cl)
    (herr : env.downloadErr = some e) :
    (downloadFileFromBucket env).status = 200 ∧
    ("Could not download file. Reason: " ++ e ++ ".") ∈ (downloadFileFromBucket env).log ∧
    (env.downloadFile = "yes" → env.writeFileErr = none →
      (downloadFileFromBucket env).fileWrites = [(env.file, env.downloadBuf, 493)]) ∧
    (env.downloadFile ≠ "yes" →
      (downloadFileFromBucket env).body = env.downloadBuf) := by
  refine ⟨?_, ?_, ?_, ?_⟩
  · by_cases hy : env.downloadFile = "yes"
    · cases h : env.writeFileErr <;> simp [downloadFileFromBucket, hhead, herr, hy, h]
    · simp [downloadFileFromBucket, hhead, herr, hy]
  · by_cases hy : env.downloadFile = "yes"
    · cases h : env.writeFileErr <;> simp [downloadFileFromBucket, hhead, herr, hy, h]
    · simp [downloadFileFromBucket, hhead, herr, hy]
  · intro hy hw
    simp [downloadFileFromBucket, hhead, herr, hy, hw]
  · intro hy
    simp [downloadFileFromBucket, hhead, herr, hy]

/-- Concrete download environment for C10: successful probe for four
bytes, failing download, no persist flag; the zero-filled buffer is
streamed anyway. -/
def dlEnvDownloadErr : DownloadEnv :=
  { bucket := "b"
    file := "f.txt"
    downloadFile := ""
    headResult := .ok 4
    downloadBuf := [0, 0, 0, 0]
    objectSize := 0
    downloadErr := some "RequestTimeout"
    writeFileErr := none
    detectContentType := fun _ => "application/octet-stream"
    formatMediaType := fun disp f => disp ++ "; filename=" ++ f }

theorem download_failure_not_surfaced_witness :
    (downloadFileFromBucket dlEnvDownloadErr).status = 200 ∧
    ("Could not download file. Reason: RequestTimeout.")
      ∈ (downloadFileFromBucket dlEnvDownloadErr).log ∧
    (dlEnvDownloadErr.downloadFile = "yes" → dlEnvDownloadErr.writeFileErr = none →
      (downloadFileFromBucket dlEnvDownloadErr).fileWrites = [("f.txt", [0, 0, 0, 0], 493)]) ∧
    (dlEnvDownloadErr.downloadFile ≠ "yes" →
      (downloadFileFromBucket dlEnvDownloadErr).body = [0, 0, 0, 0]) :=
  download_failure_after_probe_not_surfaced dlEnvDownloadErr 4 "RequestTimeout" rfl rfl

end SmallS3
